import Mathlib

/-!
Verification of the pyflowgo core against its source.

Shallow embedding of:
  * `flowgo_integrator.py`          (class `FlowGoIntegrator`, method `single_step`)
  * `flowgo_relative_viscosity_model_kd.py`
  * `flowgo_relative_viscosity_model_costa2.py`
  * `flowgo_flux_forced_convection_heat.py`

The integrator's arithmetic is pure field arithmetic and comparisons, so it
is embedded over `ℚ` (an idealisation of Python floats that keeps every
definition computable).  The viscosity and flux models use `math.pow`,
`math.erf` and `math.sqrt(math.pi)`, so they are embedded over `ℝ`.
Python raises `ZeroDivisionError` on division by zero; Lean's division is
total, so theorems about committed values carry nonzero-denominator
hypotheses wherever the source would raise.  `print` calls (stdout) are not
modelled; the `FlowGoLogger` calls are modelled as an explicit list of log
entries produced by a step.
-/

/-- A value stored in the diagnostics logger: either a number, or (as for
`effusion_rate`, logged via `str(self.effusion_rate)`) the string rendering
of a number. -/
inductive LogValue (α : Type) where
  | num : α → LogValue α
  | str : α → LogValue α
deriving DecidableEq

/-- One `logger.add_variable(name, position, value)` call:
`(name, position, value)`. -/
def LogEntry (α : Type) : Type := String × α × LogValue α

instance (α : Type) [DecidableEq α] : DecidableEq (LogEntry α) := by
  unfold LogEntry; infer_instance

/-- The mutable `FlowGoState` record integrated over the run, with its four
accessors `get_current_position`, `get_current_time`,
`get_core_temperature`, `get_crystal_fraction` as fields.  Parametric in
the scalar type (`ℚ` for the integrator, `ℝ` for the flux models). -/
structure FlowState (α : Type) where
  current_position : α
  current_time : α
  core_temperature : α
  crystal_fraction : α
deriving DecidableEq

/-- The external collaborators consumed by `FlowGoIntegrator.single_step`
(`material_lava`, `terrain_condition`, `heat_budget`,
`crystallization_rate_model`), one field per method the step calls.
`terrain_condition` is baked into `compute_mean_velocity`. -/
structure StepEnv where
  compute_mean_velocity : FlowState ℚ → ℚ
  get_channel_depth : ℚ → ℚ
  get_channel_width : ℚ → ℚ
  get_channel_slope : ℚ → ℚ
  get_max_channel_length : ℚ
  compute_heat_budget : FlowState ℚ → ℚ → ℚ → ℚ
  compute_crystallization_rate : FlowState ℚ → ℚ
  get_bulk_density : FlowState ℚ → ℚ
  get_latent_heat_of_crystallization : ℚ
  get_solid_temperature : ℚ
  computes_bulk_viscosity : FlowState ℚ → ℚ

/-- The integrator's own mutable attributes (`self.dx`, `self._has_finished`,
`self.effusion_rate`, `self.iteration`; the iteration counter is a Python
float, `0.` / `+= 1.`). -/
structure FlowGoIntegrator where
  dx : ℚ
  has_finished : Bool
  effusion_rate : ℚ
  iteration : ℚ
deriving DecidableEq

/-- The value `self.effusion_rate` holds from line 50 of `single_step`
onwards: set to `v_mean * channel_width * channel_depth` when
`self.iteration == 0.`, otherwise left at its previous value. -/
def step_effusion_rate (env : StepEnv) (I : FlowGoIntegrator) (s : FlowState ℚ) : ℚ :=
  let v_mean := env.compute_mean_velocity s
  let channel_depth := env.get_channel_depth s.current_position
  if I.iteration = 0 then v_mean * env.get_channel_width s.current_position * channel_depth
  else I.effusion_rate

/-- `channel_width = self.effusion_rate / (v_mean * channel_depth)`,
re-derived on every step (mass-conservation closure, line 50). -/
def step_channel_width (env : StepEnv) (I : FlowGoIntegrator) (s : FlowState ℚ) : ℚ :=
  step_effusion_rate env I s /
    (env.compute_mean_velocity s * env.get_channel_depth s.current_position)

/-- `FlowGoIntegrator.single_step(current_state)`.  Python mutates
`self` (the integrator), `current_state`, and the process-wide logger; here
the step returns the new integrator, the new state, and the list of logger
entries the step appended, in source order. -/
def single_step (env : StepEnv) (I : FlowGoIntegrator) (current_state : FlowState ℚ) :
    FlowGoIntegrator × FlowState ℚ × List (LogEntry ℚ) :=
  let v_mean := env.compute_mean_velocity current_state
  if v_mean ≤ 0 then ({ I with has_finished := true }, current_state, [])
  else
    let channel_depth := env.get_channel_depth current_state.current_position
    let effusion_rate := step_effusion_rate env I current_state
    let channel_width := effusion_rate / (v_mean * channel_depth)
    let channel_slope := env.get_channel_slope current_state.current_position
    let rhs := -(env.compute_heat_budget current_state channel_width channel_depth)
    let dphi_dtemp := env.compute_crystallization_rate current_state
    let bulk_density := env.get_bulk_density current_state
    let latent_heat_of_crystallization := env.get_latent_heat_of_crystallization
    let dtemp_dx := rhs / (effusion_rate * bulk_density * latent_heat_of_crystallization * dphi_dtemp)
    let dphi_dx := dtemp_dx * (-dphi_dtemp)
    let phi := current_state.crystal_fraction
    let new_phi := phi + dphi_dx * I.dx
    let temp_core := current_state.core_temperature
    let new_temp_core := temp_core + dtemp_dx * I.dx
    let log : List (LogEntry ℚ) :=
      [("channel_width", current_state.current_position, .num channel_width),
       ("crystal_fraction", current_state.current_position, .num current_state.crystal_fraction),
       ("core_temperature", current_state.current_position, .num current_state.core_temperature),
       ("viscosity", current_state.current_position, .num (env.computes_bulk_viscosity current_state)),
       ("mean_velocity", current_state.current_position, .num v_mean),
       ("core_temperature", current_state.current_position, .num current_state.core_temperature),
       ("dphi_dx", current_state.current_position, .num dphi_dx),
       ("dtemp_dx", current_state.current_position, .num dtemp_dx),
       ("dphi_dtemp", current_state.current_position, .num dphi_dtemp),
       ("current_time", current_state.current_position, .num current_state.current_time),
       ("slope", current_state.current_position, .num channel_slope),
       ("effusion_rate", current_state.current_position, .str effusion_rate),
       ("channel_depth", current_state.current_position, .num channel_depth)]
    let new_state : FlowState ℚ :=
      { current_position := current_state.current_position + I.dx,
        current_time := current_state.current_time + I.dx / v_mean,
        core_temperature := new_temp_core,
        crystal_fraction := new_phi }
    let finished :=
      if new_temp_core ≤ env.get_solid_temperature ∨ new_phi ≥ 0.52 ∨
          new_state.current_position ≥ env.get_max_channel_length then true
      else I.has_finished
    let I' : FlowGoIntegrator :=
      { dx := I.dx, has_finished := finished, effusion_rate := effusion_rate,
        iteration := I.iteration + 1 }
    (I', new_state, log)

/-! ## The viscosity models (`ℝ`-valued) -/

/-- The exception CPython's `math.pow` can raise on finite inputs
(`ValueError: math domain error`). -/
inductive PyError where
  | valueError
deriving DecidableEq

/-- CPython's `math.pow` on finite real arguments: raises `ValueError` when
the base is `0` and the exponent is negative (libm returns `inf`, CPython
maps it to `EDOM`), or when the base is negative and the exponent is not an
integer (libm returns NaN); otherwise it returns the real power
(`Real.rpow`, which agrees with libm `pow` on the remaining cases).
Float overflow to `inf` is not modelled: `ℝ` does not overflow. -/
noncomputable def math_pow (x y : ℝ) : Except PyError ℝ :=
  haveI : ∀ p : Prop, Decidable p := fun p => Classical.propDecidable p
  if x = 0 ∧ y < 0 then .error .valueError
  else if x < 0 ∧ ¬∃ n : ℤ, (n : ℝ) = y then .error .valueError
  else .ok (x ^ y)

/-- The configured parameters of `FlowGoRelativeViscosityModelKD`
(class defaults `_phimax = 0.641`, `_beinstein = 3.27`, each overridable
from the `relative_viscosity_parameters` JSON section). -/
structure KDModel where
  phimax : ℝ
  beinstein : ℝ

/-- `FlowGoRelativeViscosityModelKD.compute_relative_viscosity`:
`math.pow((1. - phi/self._phimax), - self._beinstein*self._phimax)`. -/
noncomputable def compute_relative_viscosity_kd (m : KDModel) (phi : ℝ) :
    Except PyError ℝ :=
  math_pow (1 - phi / m.phimax) (-m.beinstein * m.phimax)

/-- The configured parameter of `FlowGoRelativeViscosityModelCosta2`.
The strain rate is a parsed float compared with `== 1.0` and `== 0.0001`;
it is kept as a `ℚ` so those equality tests stay decidable. -/
structure Costa2Model where
  strain_rate : ℚ
deriving DecidableEq

/-- `FlowGoRelativeViscosityModelCosta2.read_initial_condition_from_json_file`,
given the already-parsed float value of
`data['relative_viscosity_parameters']['strain_rate']`: it stores the value
with no validation whatsoever. -/
def costa2_read_initial_condition (strain_rate : ℚ) : Costa2Model :=
  { strain_rate := strain_rate }

/-- The local `f` of `compute_relative_viscosity` (both regimes compute it
with their own constants):
`f = (1 - eps) * math.erf(min(25, (sqrt(pi)/(2(1-eps))) * (phi/phi_star) * (1 + (phi/phi_star)^gama)))`.
`math.erf` is an opaque external library function, passed as a parameter. -/
noncomputable def costa_f (erf : ℝ → ℝ) (epsilon_1 phi_star_1 gama_1 phi : ℝ) : ℝ :=
  (1 - epsilon_1) * erf (min 25
    ((Real.sqrt Real.pi / (2 * (1 - epsilon_1))) * (phi / phi_star_1) *
      (1 + (phi / phi_star_1) ^ gama_1)))

/-- `FlowGoRelativeViscosityModelCosta2.compute_relative_viscosity`: the
regime constants are selected by `if self._strain_rate == 1.0` /
`if self._strain_rate == 0.0001`; any other strain rate falls off the end
of the function, which in Python returns `None` — hence the `Option`. -/
noncomputable def compute_relative_viscosity_costa2 (m : Costa2Model) (erf : ℝ → ℝ)
    (phi : ℝ) : Option ℝ :=
  if m.strain_rate = 1 then
    let delta_1 : ℝ := 4.45
    let gama_1 : ℝ := 8.55
    let phi_star_1 : ℝ := 0.28
    let epsilon_1 : ℝ := 0.001
    let f := costa_f erf epsilon_1 phi_star_1 gama_1 phi
    some ((1 + (phi / phi_star_1) ^ delta_1) / ((1 - f) ^ (2.5 * phi_star_1)))
  else if m.strain_rate = 0.0001 then
    let delta_1 : ℝ := 7.5
    let gama_1 : ℝ := 5.5
    let phi_star_1 : ℝ := 0.26
    let epsilon_1 : ℝ := 0.0002
    let f := costa_f erf epsilon_1 phi_star_1 gama_1 phi
    some ((1 + (phi / phi_star_1) ^ delta_1) / ((1 - f) ^ (2.5 * phi_star_1)))
  else none

/-! ## The forced-convection flux model (`ℝ`-valued) -/

/-- The external collaborators of `FlowGoFluxForcedConvectionHeat`
(`crust_temperature_model`, `effective_cover_crust_model`, `material_lava`,
`material_air`), one field per method the flux computation calls. -/
structure FluxEnv where
  compute_crust_temperature : FlowState ℝ → ℝ
  compute_effective_cover_fraction : FlowState ℝ → ℝ
  computes_molten_material_temperature : FlowState ℝ → ℝ
  compute_conv_heat_transfer_coef : ℝ
  get_temperature : ℝ

/-- `FlowGoFluxForcedConvectionHeat.compute_characteristic_surface_temperature`:
returns `Tconv` together with the three logger entries the call appends.
Python's float `**` on the positive temperatures involved agrees with
`Real.rpow`. -/
noncomputable def compute_characteristic_surface_temperature (env : FluxEnv)
    (state : FlowState ℝ) : ℝ × List (LogEntry ℝ) :=
  let crust_temperature := env.compute_crust_temperature state
  let effective_cover_fraction := env.compute_effective_cover_fraction state
  let molten_material_temperature := env.computes_molten_material_temperature state
  let characteristic_surface_temperature :=
    (effective_cover_fraction * crust_temperature ^ (1.333 : ℝ) +
      (1 - effective_cover_fraction) * molten_material_temperature ^ (1.333 : ℝ)) ^ (0.75 : ℝ)
  (characteristic_surface_temperature,
   [("characteristic_surface_temperature", state.current_position,
     .num characteristic_surface_temperature),
    ("crust_temperature", state.current_position, .num crust_temperature),
    ("effective_cover_fraction", state.current_position, .num effective_cover_fraction)])

/-- `FlowGoFluxForcedConvectionHeat.compute_flux`:
`qforcedconv = conv_heat_transfer_coef * (Tconv - air_temperature) * channel_width`
(`channel_depth` is accepted but unused, as in the source). -/
noncomputable def compute_flux (env : FluxEnv) (state : FlowState ℝ)
    (channel_width channel_depth : ℝ) : ℝ × List (LogEntry ℝ) :=
  let conv_heat_transfer_coef := env.compute_conv_heat_transfer_coef
  let air_temperature := env.get_temperature
  let r := compute_characteristic_surface_temperature env state
  (conv_heat_transfer_coef * (r.1 - air_temperature) * channel_width, r.2)

/-! ## Concrete fixtures used by the witnesses -/

/-- A concrete collaborator bundle: constant velocity 2, channel depth 3,
width 5, heat budget 60, crystallization rate 1, density 1, latent heat 1,
solidus 0, maximum channel length 10. -/
def env0 : StepEnv :=
  { compute_mean_velocity := fun _ => 2
    get_channel_depth := fun _ => 3
    get_channel_width := fun _ => 5
    get_channel_slope := fun _ => 1/10
    get_max_channel_length := 10
    compute_heat_budget := fun _ _ _ => 60
    compute_crystallization_rate := fun _ => 1
    get_bulk_density := fun _ => 1
    get_latent_heat_of_crystallization := 1
    get_solid_temperature := 0
    computes_bulk_viscosity := fun _ => 7 }

/-- `env0` with a stalled flow (negative mean velocity). -/
def envNeg : StepEnv := { env0 with compute_mean_velocity := fun _ => -1 }

/-- A freshly constructed integrator: `dx = 1`, not finished, effusion rate
0, iteration counter 0. -/
def I0 : FlowGoIntegrator :=
  { dx := 1, has_finished := false, effusion_rate := 0, iteration := 0 }

/-- An integrator on a later step: iteration counter 1, effusion rate 30. -/
def I1 : FlowGoIntegrator :=
  { dx := 1, has_finished := false, effusion_rate := 30, iteration := 1 }

/-- A concrete initial state. -/
def s0 : FlowState ℚ :=
  { current_position := 0, current_time := 0, core_temperature := 100,
    crystal_fraction := 0 }

/-- `s0` placed half a step short of `env0`'s maximum channel length. -/
def s3 : FlowState ℚ := { s0 with current_position := 19/2 }

/-! ## The claims -/

/-- C1: for every Running state with `v_mean > 0`, `single_step` commits
exactly the explicit-Euler update: with
`rhs = -heat_budget.compute_heat_budget(state, channel_width, channel_depth)`,
`dtemp_dx = rhs / (effusion_rate * bulk_density * latent_heat_of_crystallization * dphi_dtemp)`
and `dphi_dx = dtemp_dx * (-dphi_dtemp)`, the committed state has
`crystal_fraction = phi + dphi_dx*dx`, `core_temperature = T + dtemp_dx*dx`,
`position = position + dx` and `time = time + dx / v_mean`.  (The
nonzero-denominator hypotheses mark where Python would raise
`ZeroDivisionError` instead of committing.) -/
theorem single_step_euler_update (env : StepEnv) (I : FlowGoIntegrator) (s : FlowState ℚ)
    (hrun : I.has_finished = false)
    (hv : 0 < env.compute_mean_velocity s)
    (hd : env.get_channel_depth s.current_position ≠ 0)
    (hden : step_effusion_rate env I s * env.get_bulk_density s *
      env.get_latent_heat_of_crystallization * env.compute_crystallization_rate s ≠ 0) :
    (single_step env I s).2.1 =
      { current_position := s.current_position + I.dx
        current_time := s.current_time + I.dx / env.compute_mean_velocity s
        core_temperature := s.core_temperature +
          -(env.compute_heat_budget s (step_channel_width env I s)
              (env.get_channel_depth s.current_position)) /
            (step_effusion_rate env I s * env.get_bulk_density s *
              env.get_latent_heat_of_crystallization * env.compute_crystallization_rate s) *
            I.dx
        crystal_fraction := s.crystal_fraction +
          -(env.compute_heat_budget s (step_channel_width env I s)
              (env.get_channel_depth s.current_position)) /
            (step_effusion_rate env I s * env.get_bulk_density s *
              env.get_latent_heat_of_crystallization * env.compute_crystallization_rate s) *
            -(env.compute_crystallization_rate s) * I.dx } := by
  have hv' : ¬ env.compute_mean_velocity s ≤ 0 := not_le.mpr hv
  unfold single_step step_channel_width
  rw [if_neg hv']

/-- Witness for C1 at `env0`, `I0`, `s0`. -/
theorem single_step_euler_update_witness :
    I0.has_finished = false ∧ 0 < env0.compute_mean_velocity s0 ∧
    env0.get_channel_depth s0.current_position ≠ 0 ∧
    step_effusion_rate env0 I0 s0 * env0.get_bulk_density s0 *
      env0.get_latent_heat_of_crystallization * env0.compute_crystallization_rate s0 ≠ 0 ∧
    (single_step env0 I0 s0).2.1 =
      { current_position := 1, current_time := 1/2, core_temperature := 98,
        crystal_fraction := 2 } := by
  refine ⟨rfl, by norm_num [env0], by norm_num [env0], ?_, ?_⟩
  · norm_num [step_effusion_rate, env0, I0, s0]
  · rw [single_step_euler_update env0 I0 s0 rfl (by norm_num [env0]) (by norm_num [env0])
      (by norm_num [step_effusion_rate, env0, I0, s0])]
    norm_num [FlowState.mk.injEq, step_effusion_rate, step_channel_width, env0, I0, s0]

/-- C2: `effusion_rate` is assigned exactly once, on the step where the
iteration counter is 0 (as `v_mean × channel_width × channel_depth` with
the terrain-supplied width), and never reassigned on later steps; on every
step the used (and logged) channel width is re-derived as
`effusion_rate / (v_mean × channel_depth)`, so `width × depth × v_mean`
recovers the effusion rate, and at the first step the re-derived width
equals the terrain-supplied width. -/
theorem effusion_rate_fixed_once (env : StepEnv) (I : FlowGoIntegrator) (s : FlowState ℚ)
    (hv : 0 < env.compute_mean_velocity s)
    (hd : env.get_channel_depth s.current_position ≠ 0) :
    (single_step env I s).1.iteration = I.iteration + 1 ∧
    (I.iteration = 0 → (single_step env I s).1.effusion_rate =
      env.compute_mean_velocity s * env.get_channel_width s.current_position *
        env.get_channel_depth s.current_position) ∧
    (I.iteration ≠ 0 → (single_step env I s).1.effusion_rate = I.effusion_rate) ∧
    (single_step env I s).2.2.head? =
      some ("channel_width", s.current_position, .num (step_channel_width env I s)) ∧
    step_channel_width env I s * env.get_channel_depth s.current_position *
      env.compute_mean_velocity s = step_effusion_rate env I s ∧
    (I.iteration = 0 → step_channel_width env I s = env.get_channel_width s.current_position) := by
  have hv' : ¬ env.compute_mean_velocity s ≤ 0 := not_le.mpr hv
  have hvne : env.compute_mean_velocity s ≠ 0 := ne_of_gt hv
  refine ⟨?_, ?_, ?_, ?_, ?_, ?_⟩
  · unfold single_step; rw [if_neg hv']
  · intro h0
    unfold single_step step_effusion_rate
    rw [if_neg hv', if_pos h0]
  · intro h0
    unfold single_step step_effusion_rate
    rw [if_neg hv', if_neg h0]
  · unfold single_step step_channel_width
    rw [if_neg hv']
    rfl
  · unfold step_channel_width
    rw [div_mul_eq_mul_div, div_mul_eq_mul_div, div_eq_iff (mul_ne_zero hvne hd)]
    ring
  · intro h0
    unfold step_channel_width step_effusion_rate
    rw [if_pos h0]
    rw [div_eq_iff (mul_ne_zero hvne hd)]
    ring

/-- Witness for C2 at `env0`, `I0`, `s0` (first step) and `I1` (later step). -/
theorem effusion_rate_fixed_once_witness :
    (0 < env0.compute_mean_velocity s0 ∧ env0.get_channel_depth s0.current_position ≠ 0) ∧
    (single_step env0 I0 s0).1.effusion_rate = 30 ∧
    step_channel_width env0 I0 s0 = 5 ∧
    (single_step env0 I1 s0).1.effusion_rate = 30 ∧
    step_channel_width env0 I1 s0 = 5 := by
  refine ⟨⟨by norm_num [env0], by norm_num [env0]⟩, ?_, ?_, ?_, ?_⟩
  · rw [(effusion_rate_fixed_once env0 I0 s0 (by norm_num [env0]) (by norm_num [env0])).2.1 rfl]
    norm_num [env0]
  · rw [(effusion_rate_fixed_once env0 I0 s0 (by norm_num [env0])
      (by norm_num [env0])).2.2.2.2.2 rfl]
    norm_num [env0]
  · rw [(effusion_rate_fixed_once env0 I1 s0 (by norm_num [env0])
      (by norm_num [env0])).2.2.1 (by norm_num [I1])]
    norm_num [I1]
  · norm_num [step_channel_width, step_effusion_rate, env0, I1, s0]

/-- C3: after the commit of each step, the termination predicates are
evaluated against the newly committed values: the step sets Finished iff
the flag was already set or the new core temperature is at most the
solidus, the new crystal fraction is at least 0.52, or the new position is
at least the terrain's maximum channel length; the committed position is
always `old position + dx`, retained unclamped even when it passes the
maximum channel length. -/
theorem termination_checked_after_commit (env : StepEnv) (I : FlowGoIntegrator)
    (s : FlowState ℚ) (hv : 0 < env.compute_mean_velocity s) :
    ((single_step env I s).1.has_finished = true ↔
      (I.has_finished = true ∨
        (single_step env I s).2.1.core_temperature ≤ env.get_solid_temperature ∨
        (single_step env I s).2.1.crystal_fraction ≥ 0.52 ∨
        (single_step env I s).2.1.current_position ≥ env.get_max_channel_length)) ∧
    (single_step env I s).2.1.current_position = s.current_position + I.dx := by
  have hv' : ¬ env.compute_mean_velocity s ≤ 0 := not_le.mpr hv
  simp only [single_step]
  rw [if_neg hv']
  refine ⟨?_, rfl⟩
  split_ifs with hc
  · exact iff_of_true rfl (Or.inr hc)
  · exact (or_iff_left hc).symm

/-- Witness for C3 at `env0`, `I1`, `s3`: one step from position 19/2
passes the maximum channel length 10 and finishes with the overshot
position 21/2 retained. -/
theorem termination_checked_after_commit_witness :
    0 < env0.compute_mean_velocity s3 ∧
    ((single_step env0 I1 s3).1.has_finished = true ↔
      (I1.has_finished = true ∨
        (single_step env0 I1 s3).2.1.core_temperature ≤ env0.get_solid_temperature ∨
        (single_step env0 I1 s3).2.1.crystal_fraction ≥ 0.52 ∨
        (single_step env0 I1 s3).2.1.current_position ≥ env0.get_max_channel_length)) ∧
    (single_step env0 I1 s3).2.1.current_position = s3.current_position + I1.dx ∧
    (single_step env0 I1 s3).1.has_finished = true ∧
    (single_step env0 I1 s3).2.1.current_position = 21/2 := by
  refine ⟨by norm_num [env0], (termination_checked_after_commit env0 I1 s3 (by norm_num [env0])).1,
    (termination_checked_after_commit env0 I1 s3 (by norm_num [env0])).2, ?_, ?_⟩
  · norm_num [single_step, step_effusion_rate, env0, I1, s3, s0]
  · norm_num [single_step, step_effusion_rate, env0, I1, s3, s0]

/-- C4: if the computed mean velocity is ≤ 0, `single_step` sets Finished
and returns at once: the flow state is returned unchanged, the iteration
counter and effusion rate are unchanged, and no log entry is emitted. -/
theorem stalled_step_no_effect (env : StepEnv) (I : FlowGoIntegrator) (s : FlowState ℚ)
    (hv : env.compute_mean_velocity s ≤ 0) :
    single_step env I s = ({ I with has_finished := true }, s, []) := by
  unfold single_step
  rw [if_pos hv]

/-- Witness for C4 at `envNeg`, `I1`, `s0`. -/
theorem stalled_step_no_effect_witness :
    envNeg.compute_mean_velocity s0 ≤ 0 ∧
    single_step envNeg I1 s0 = ({ I1 with has_finished := true }, s0, []) :=
  ⟨by norm_num [envNeg], stalled_step_no_effect envNeg I1 s0 (by norm_num [envNeg])⟩

/-- C5: for every step taken while Running (with the physical sign
conventions: nonnegative step, nonnegative net heat loss, positive
effusion rate, density, latent heat and crystallization rate — where the
last four being zero would make Python raise `ZeroDivisionError`), the
committed state is monotone: position does not decrease, core temperature
does not increase, crystal fraction does not decrease. -/
theorem step_monotonicity (env : StepEnv) (I : FlowGoIntegrator) (s : FlowState ℚ)
    (hv : 0 < env.compute_mean_velocity s)
    (hdx : 0 ≤ I.dx)
    (hhb : 0 ≤ env.compute_heat_budget s (step_channel_width env I s)
      (env.get_channel_depth s.current_position))
    (her : 0 < step_effusion_rate env I s)
    (hrho : 0 < env.get_bulk_density s)
    (hlat : 0 < env.get_latent_heat_of_crystallization)
    (hcr : 0 < env.compute_crystallization_rate s) :
    s.current_position ≤ (single_step env I s).2.1.current_position ∧
    (single_step env I s).2.1.core_temperature ≤ s.core_temperature ∧
    s.crystal_fraction ≤ (single_step env I s).2.1.crystal_fraction := by
  have hv' : ¬ env.compute_mean_velocity s ≤ 0 := not_le.mpr hv
  have hden : 0 < step_effusion_rate env I s * env.get_bulk_density s *
      env.get_latent_heat_of_crystallization * env.compute_crystallization_rate s := by
    positivity
  have hdtemp : -(env.compute_heat_budget s (step_channel_width env I s)
        (env.get_channel_depth s.current_position)) /
      (step_effusion_rate env I s * env.get_bulk_density s *
        env.get_latent_heat_of_crystallization * env.compute_crystallization_rate s) ≤ 0 :=
    div_nonpos_of_nonpos_of_nonneg (neg_nonpos_of_nonneg hhb) hden.le
  unfold single_step
  rw [if_neg hv']
  unfold step_channel_width at hdtemp hhb
  refine ⟨by simpa using hdx, ?_, ?_⟩
  · have := mul_nonpos_of_nonpos_of_nonneg hdtemp hdx
    simpa using this
  · have h1 : 0 ≤ -(env.compute_heat_budget s
          (step_effusion_rate env I s /
            (env.compute_mean_velocity s * env.get_channel_depth s.current_position))
          (env.get_channel_depth s.current_position)) /
        (step_effusion_rate env I s * env.get_bulk_density s *
          env.get_latent_heat_of_crystallization * env.compute_crystallization_rate s) *
        -(env.compute_crystallization_rate s) := by
      have h2 := mul_nonneg (neg_nonneg.2 hdtemp) hcr.le
      rw [neg_mul] at h2
      rw [mul_neg]
      exact h2
    have := mul_nonneg h1 hdx
    simpa using this

/-- Witness for C5 at `env0`, `I1`, `s0`. -/
theorem step_monotonicity_witness :
    (0 < env0.compute_mean_velocity s0 ∧ (0:ℚ) ≤ I1.dx ∧
      0 ≤ env0.compute_heat_budget s0 (step_channel_width env0 I1 s0)
        (env0.get_channel_depth s0.current_position) ∧
      0 < step_effusion_rate env0 I1 s0 ∧ 0 < env0.get_bulk_density s0 ∧
      0 < env0.get_latent_heat_of_crystallization ∧
      0 < env0.compute_crystallization_rate s0) ∧
    (s0.current_position ≤ (single_step env0 I1 s0).2.1.current_position ∧
      (single_step env0 I1 s0).2.1.core_temperature ≤ s0.core_temperature ∧
      s0.crystal_fraction ≤ (single_step env0 I1 s0).2.1.crystal_fraction) :=
  ⟨⟨by norm_num [env0], by norm_num [I1], by norm_num [env0], by
      norm_num [step_effusion_rate, env0, I1, s0], by norm_num [env0], by norm_num [env0],
      by norm_num [env0]⟩,
    step_monotonicity env0 I1 s0 (by norm_num [env0]) (by norm_num [I1]) (by norm_num [env0])
      (by norm_num [step_effusion_rate, env0, I1, s0]) (by norm_num [env0])
      (by norm_num [env0]) (by norm_num [env0])⟩

/-- C10: `single_step` never reads the `_has_finished` flag: every output
except the flag itself is independent of it, the step executes in full and
mutates the state even when the flag is already set, and the flag update
only ever ors in new terminations (no path resets it). -/
theorem single_step_ignores_finished_flag (env : StepEnv) (I : FlowGoIntegrator)
    (s : FlowState ℚ) (b : Bool) :
    single_step env { I with has_finished := b } s =
      ({ (single_step env { I with has_finished := false } s).1 with
          has_finished :=
            b || (single_step env { I with has_finished := false } s).1.has_finished },
       (single_step env { I with has_finished := false } s).2) := by
  by_cases hv : env.compute_mean_velocity s ≤ 0
  · simp only [single_step]
    rw [if_pos hv, if_pos hv]
    simp
  · simp only [single_step, step_effusion_rate]
    rw [if_neg hv, if_neg hv]
    split_ifs <;> simp

/-- C6 (counterexample): with the source's default parameters
(`_phimax = 0.641`, `_beinstein = 3.27`), evaluating the Krieger–Dougherty
model at `φ = φ_max` makes the base of `math.pow` exactly 0 with a negative
exponent, and CPython's `math.pow` raises `ValueError` — the call crashes,
it does not return a non-finite number. -/
theorem kd_at_phimax_raises :
    compute_relative_viscosity_kd ⟨0.641, 3.27⟩ 0.641 = .error .valueError := by
  unfold compute_relative_viscosity_kd math_pow
  split_ifs with h1 h2
  · rfl
  · rfl
  · exact absurd ⟨by norm_num, by norm_num⟩ h1

/-- C6 (amended): `compute_relative_viscosity` returns
`(1 − φ/φ_max)^(−B·φ_max)` whenever the base `1 − φ/φ_max` is positive
(i.e. for `φ < φ_max`), and at `φ = φ_max` it raises `ValueError`
(`math.pow` of base 0 with negative exponent) — a crash, not a non-finite
return value. -/
theorem kd_formula_and_boundary (m : KDModel) (phi : ℝ)
    (hpos : 0 < 1 - phi / m.phimax) (hb : 0 < m.beinstein * m.phimax) :
    compute_relative_viscosity_kd m phi =
      .ok ((1 - phi / m.phimax) ^ (-m.beinstein * m.phimax)) ∧
    compute_relative_viscosity_kd m m.phimax = .error .valueError := by
  have hne : m.phimax ≠ 0 := by
    intro h
    rw [h, mul_zero] at hb
    exact lt_irrefl 0 hb
  constructor
  · unfold compute_relative_viscosity_kd math_pow
    rw [if_neg fun h => absurd h.1 (ne_of_gt hpos),
      if_neg fun h => absurd h.1 (asymm hpos)]
  · unfold compute_relative_viscosity_kd math_pow
    rw [if_pos ⟨by rw [div_self hne, sub_self], by rw [neg_mul]; exact neg_neg_of_pos hb⟩]

/-- Witness for the amended C6 at the source defaults and `φ = 0.2`. -/
theorem kd_formula_and_boundary_witness :
    ((0:ℝ) < 1 - 0.2 / 0.641) ∧ ((0:ℝ) < 3.27 * 0.641) ∧
    (compute_relative_viscosity_kd ⟨0.641, 3.27⟩ 0.2 =
        .ok ((1 - (0.2:ℝ) / 0.641) ^ (-(3.27:ℝ) * 0.641)) ∧
      compute_relative_viscosity_kd ⟨0.641, 3.27⟩ 0.641 = .error .valueError) := by
  refine ⟨by norm_num, by norm_num, ?_⟩
  exact kd_formula_and_boundary ⟨0.641, 3.27⟩ 0.2 (by norm_num) (by norm_num)

/-- C7 (counterexample): the strain rate 2.0 — neither 1.0 nor 1.0e-4 — is
accepted by configuration loading without any validation, and
`compute_relative_viscosity` then falls through both regimes and returns no
value (`None`), instead of the configuration having been rejected. -/
theorem costa2_accepts_any_strain_rate :
    costa2_read_initial_condition 2 = ⟨2⟩ ∧
    compute_relative_viscosity_costa2 ⟨2⟩ (fun x => x) 0.1 = none := by
  refine ⟨rfl, ?_⟩
  unfold compute_relative_viscosity_costa2
  rw [if_neg (by norm_num), if_neg (by norm_num)]

/-- C7 (amended): configuration loading stores any strain rate unvalidated;
`compute_relative_viscosity` returns a numeric multiplier exactly for the
two supported regimes (strain rate 1.0: constants δ=4.45, γ=8.55, φ*=0.28,
ε=0.001; strain rate 1.0e-4: δ=7.5, γ=5.5, φ*=0.26, ε=0.0002) and returns
`None` for every other strain rate. -/
theorem costa2_regimes (strain_rate : ℚ) (erf : ℝ → ℝ) (phi : ℝ) :
    costa2_read_initial_condition strain_rate = ⟨strain_rate⟩ ∧
    compute_relative_viscosity_costa2 ⟨1⟩ erf phi =
      some ((1 + (phi / 0.28) ^ (4.45:ℝ)) /
        ((1 - costa_f erf 0.001 0.28 8.55 phi) ^ (2.5 * 0.28 : ℝ))) ∧
    compute_relative_viscosity_costa2 ⟨0.0001⟩ erf phi =
      some ((1 + (phi / 0.26) ^ (7.5:ℝ)) /
        ((1 - costa_f erf 0.0002 0.26 5.5 phi) ^ (2.5 * 0.26 : ℝ))) ∧
    (strain_rate ≠ 1 → strain_rate ≠ 0.0001 →
      compute_relative_viscosity_costa2 ⟨strain_rate⟩ erf phi = none) := by
  refine ⟨rfl, ?_, ?_, ?_⟩
  · unfold compute_relative_viscosity_costa2
    rw [if_pos rfl]
  · unfold compute_relative_viscosity_costa2
    rw [if_neg (by norm_num), if_pos rfl]
  · intro h1 h2
    unfold compute_relative_viscosity_costa2
    rw [if_neg (by simpa using h1), if_neg (by simpa using h2)]

/-- Witness for the amended C7 at strain rate 2. -/
theorem costa2_regimes_witness :
    ((2:ℚ) ≠ 1) ∧ ((2:ℚ) ≠ 0.0001) ∧
    costa2_read_initial_condition 2 = ⟨2⟩ ∧
    compute_relative_viscosity_costa2 ⟨2⟩ id 0.1 = none := by
  refine ⟨by norm_num, by norm_num, (costa2_regimes 2 id 0.1).1,
    (costa2_regimes 2 id 0.1).2.2.2 (by norm_num) (by norm_num)⟩

/-- C8: in the Costa-family model the argument passed to `erf` is clamped
at 25: for every crystal fraction whose raw argument
`(√π / (2(1−ε))) · (φ/φ*) · (1 + (φ/φ*)^γ)` exceeds 25, the computed `f`
equals `(1−ε)·erf(25)` exactly — the value at argument 25. -/
theorem costa_erf_argument_clamped (erf : ℝ → ℝ) (epsilon_1 phi_star_1 gama_1 phi : ℝ)
    (h : 25 < (Real.sqrt Real.pi / (2 * (1 - epsilon_1))) * (phi / phi_star_1) *
      (1 + (phi / phi_star_1) ^ gama_1)) :
    costa_f erf epsilon_1 phi_star_1 gama_1 phi = (1 - epsilon_1) * erf 25 := by
  unfold costa_f
  rw [min_eq_left h.le]

/-- Witness for C8 with the strain-rate-1.0 regime constants at `φ = 100`. -/
theorem costa_erf_argument_clamped_witness :
    25 < (Real.sqrt Real.pi / (2 * (1 - 0.001))) * ((100:ℝ) / 0.28) *
      (1 + ((100:ℝ) / 0.28) ^ (8.55:ℝ)) ∧
    costa_f id 0.001 0.28 8.55 100 = (1 - 0.001) * id 25 := by
  have hx : (0:ℝ) ≤ ((100:ℝ) / 0.28) ^ (8.55:ℝ) := Real.rpow_nonneg (by norm_num) _
  have hs : (1.7:ℝ) ≤ Real.sqrt Real.pi := by
    rw [Real.le_sqrt (by norm_num) Real.pi_nonneg]
    nlinarith [Real.pi_gt_three]
  have h : 25 < (Real.sqrt Real.pi / (2 * (1 - 0.001))) * ((100:ℝ) / 0.28) *
      (1 + ((100:ℝ) / 0.28) ^ (8.55:ℝ)) := by
    have e : (Real.sqrt Real.pi / (2 * (1 - 0.001))) * ((100:ℝ) / 0.28) *
        (1 + ((100:ℝ) / 0.28) ^ (8.55:ℝ)) =
        (1250000 / 6993) * (Real.sqrt Real.pi +
          Real.sqrt Real.pi * ((100:ℝ) / 0.28) ^ (8.55:ℝ)) := by ring
    rw [e]
    nlinarith [mul_nonneg (sub_nonneg.mpr hs) hx, hx]
  exact ⟨h, costa_erf_argument_clamped id 0.001 0.28 8.55 100 h⟩

/-- C9: the forced-convection flux equals
`h_c · (Tconv − T_air) · channel_width`, with the characteristic surface
temperature `Tconv = (f·Tcrust^1.333 + (1−f)·Tmolten^1.333)^0.75`, where
`f` is the effective cover fraction, `Tcrust` comes from the
crust-temperature model and `Tmolten` from the lava material's
molten-temperature accessor. -/
theorem forced_convection_flux_formula (env : FluxEnv) (state : FlowState ℝ)
    (channel_width channel_depth : ℝ) :
    (compute_flux env state channel_width channel_depth).1 =
      env.compute_conv_heat_transfer_coef *
        ((compute_characteristic_surface_temperature env state).1 - env.get_temperature) *
        channel_width ∧
    (compute_characteristic_surface_temperature env state).1 =
      (env.compute_effective_cover_fraction state *
          env.compute_crust_temperature state ^ (1.333:ℝ) +
        (1 - env.compute_effective_cover_fraction state) *
          env.computes_molten_material_temperature state ^ (1.333:ℝ)) ^ (0.75:ℝ) :=
  ⟨rfl, rfl⟩
